import Mathlib

/- Verification development for the IOSM WWAN session multiplexer
   (iosm_ipc_wwan.c).  The C code is shallowly embedded: the session
   table of `struct iosm_wwan` becomes an unbounded store `Nat → IpcVlanInfo`
   (mirroring raw memory: the C code performs no bounds check of its own
   on writes) together with the live count `vlan_devs_nr`; the channel
   transport (`imem_sys_wwan_open` / `imem_sys_wwan_close` /
   `imem_sys_wwan_transmit`) is an oracle passed as a function parameter,
   and each operation additionally reports whether it invoked the
   transport. -/

namespace Iosm

/- Constants from the source and from the Linux uapi headers it uses. -/

def WWAN_ROOT_VLAN_TAG : Nat := 0
def WWAN_DEFAULT_TXQ : Nat := 0
def IPC_MEM_VLAN_TO_SESSION : Int := 1
def IMEM_WWAN_DATA_VLAN_ID_START : Nat := 1
def IMEM_WWAN_CTRL_VLAN_ID_START : Nat := 257
def IMEM_WWAN_CTRL_VLAN_ID_END : Nat := 512
def ETH_HLEN : Nat := 14
def VLAN_ETH_HLEN : Nat := 18
def ETH_P_IP : Nat := 0x0800
def ETH_P_IPV6 : Nat := 0x86DD
def ETH_P_8021Q : Nat := 0x8100
def ETH_P_802_3 : Nat := 0x0001
def EINVAL : Int := 22
def ENODEV : Int := 19
def EXDEV : Int := 18
def EIOval : Int := 5
def NETDEV_TX_OK : Int := 0
def NETDEV_TX_BUSY : Int := 16

/- Data model: struct ipc_vlan_info and struct iosm_wwan. -/

structure NetDeviceStats where
  rx_packets : Nat
  tx_packets : Nat
  rx_bytes : Nat
  tx_bytes : Nat
deriving DecidableEq

structure IpcVlanInfo where
  vlan_id : Int
  ch_id : Int
  stats : NetDeviceStats
deriving DecidableEq

structure IosmWwan where
  vlan_devs_alloc : Bool
  vlan_devs : Nat → IpcVlanInfo
  vlan_devs_nr : Nat
  max_devs : Nat
  max_ip_devs : Nat
  stats : NetDeviceStats

def setEntry (w : IosmWwan) (i : Nat) (e : IpcVlanInfo) : IosmWwan :=
  { w with vlan_devs := fun j => if j = i then e else w.vlan_devs j }

/- Embedding of ipc_wwan_get_vlan_devs_nr: linear scan of the first
   vlan_devs_nr entries for the first one whose vlan_id equals the tag;
   -EINVAL when the table pointer is null or no entry matches. -/
def ipc_wwan_get_vlan_devs_nr (w : IosmWwan) (tag : Nat) : Int :=
  if w.vlan_devs_alloc then
    match (List.range w.vlan_devs_nr).find?
        (fun i => (w.vlan_devs i).vlan_id == (tag : Int)) with
    | some i => (i : Int)
    | none => -EINVAL
  else -EINVAL

structure AddResult where
  ret : Int
  state : IosmWwan
  openCalled : Bool

/- Embedding of ipc_wwan_add_vlan.  openCh is the transport primitive
   imem_sys_wwan_open.  The C function rejects vid >= 512 or a null
   table, returns 0 at once for vid 0, and otherwise writes
   vlan_devs[vlan_devs_nr] (the write of ch_id happens before the
   negative-channel check and persists) — there is no capacity check. -/
def ipc_wwan_add_vlan (openCh : Nat → Int) (w : IosmWwan) (vid : Nat) :
    AddResult :=
  if 512 ≤ vid ∨ w.vlan_devs_alloc = false then ⟨-EINVAL, w, false⟩
  else if vid = WWAN_ROOT_VLAN_TAG then ⟨0, w, false⟩
  else
    let ch := openCh vid
    let w1 := setEntry w w.vlan_devs_nr
        { w.vlan_devs w.vlan_devs_nr with ch_id := ch }
    if ch < 0 then ⟨-ENODEV, w1, true⟩
    else
      let w2 := setEntry w1 w.vlan_devs_nr
          { w1.vlan_devs w.vlan_devs_nr with vlan_id := (vid : Int) }
      ⟨0, { w2 with vlan_devs_nr := w.vlan_devs_nr + 1 }, true⟩

structure RemoveResult where
  ret : Int
  state : IosmWwan
  closeCalled : Bool

/- Embedding of ipc_wwan_remove_vlan.  The shift loop runs i from ch_nr
   while i < vlan_devs_nr, copying vlan_devs[i+1] over vlan_devs[i];
   since i increases, each copied source still holds its pre-loop value,
   so the net effect is devs[j] := old devs[j+1] for ch_nr ≤ j < nr. -/
def ipc_wwan_remove_vlan (w : IosmWwan) (vid : Nat) : RemoveResult :=
  let ch_nr := ipc_wwan_get_vlan_devs_nr w vid
  if ch_nr < 0 then ⟨ch_nr, w, false⟩
  else
    let n := ch_nr.toNat
    if (w.vlan_devs n).ch_id < 0 then ⟨-EINVAL, w, false⟩
    else
      let w1 := setEntry w n { w.vlan_devs n with ch_id := -1 }
      let w2 := { w1 with
        vlan_devs := fun j =>
          if n ≤ j ∧ j < w.vlan_devs_nr then w1.vlan_devs (j + 1)
          else w1.vlan_devs j,
        vlan_devs_nr := w.vlan_devs_nr - 1 }
      ⟨0, w2, true⟩

/- Frame model.  skb.protocol is the metadata ethertype field (stored
   big-endian in C; both sides of every comparison go through htons, so
   plain ethertype values are compared here).  skb.vlan_tag is the
   abstract result of vlan_get_tag: some tag on success, none when the
   frame carries no VLAN tag.  skb.data is the byte buffer starting at
   the link-layer header. -/

structure SkBuff where
  protocol : Nat
  vlan_tag : Option Nat
  data : List Nat

/- Big-endian 16-bit read at a byte offset, as the C code reads h_proto
   (offset 12 in struct ethhdr) or h_vlan_encapsulated_proto (offset 16
   in struct vlan_ethhdr). -/
def get_be16 (data : List Nat) (off : Nat) : Nat :=
  data.getD off 0 * 256 + data.getD (off + 1) 0

/- Embedding of ipc_wwan_pull_header.  Takes the initial value of the
   caller's is_ip variable and returns (header_size, skb after the pull,
   final is_ip value).  Note that is_ip is derived from the frame
   ethertype (h_proto, or the VLAN-encapsulated protocol for 802.1Q
   frames), and is written before the skb_pull, which in C can only fail
   when skb->len < header_size and therefore never here. -/
def ipc_wwan_pull_header (skb : SkBuff) (is_ip0 : Bool) :
    Nat × SkBuff × Bool :=
  let proto :=
    if skb.protocol = ETH_P_8021Q then get_be16 skb.data 16
    else get_be16 skb.data 12
  let header_size :=
    if skb.protocol = ETH_P_8021Q then
      if skb.data.length < VLAN_ETH_HLEN then 0 else VLAN_ETH_HLEN
    else
      if skb.data.length < ETH_HLEN then 0 else ETH_HLEN
  if 0 < header_size then
    let is_ip := proto == ETH_P_IP || proto == ETH_P_IPV6
    if skb.data.length < header_size then (0, skb, is_ip)
    else (header_size, { skb with data := skb.data.drop header_size }, is_ip)
  else (header_size, skb, is_ip0)

/- Embeddings of the session-id/VLAN-tag conversions.  The id + 1 sum is
   truncated to u16 as in the C cast. -/
def ipc_wwan_mux_session_to_vlan_tag (id : Int) : Nat :=
  ((id + IPC_MEM_VLAN_TO_SESSION) % 65536).toNat

def ipc_wwan_vlan_to_mux_session_id (tag : Nat) : Int :=
  (tag : Int) - IPC_MEM_VLAN_TO_SESSION

structure TxResult where
  ret : Int
  txCalled : Bool
  freed : Bool
deriving DecidableEq

/- Tail of ipc_wwan_transmit after all checks passed: hand the skb to
   imem_sys_wwan_transmit (modelled by the oracle imemTx, a function of
   tag and channel id) and interpret its result.  0 becomes NETDEV_TX_OK
   with ownership transferred; -2 re-pushes the stripped header (which
   cannot fail in this model since the bytes were just pulled) and
   returns NETDEV_TX_BUSY; anything else becomes the EIOval error and the frame is
   freed on the exit path. -/
def ipc_wwan_transmit_send (imemTx : Nat → Int → Int) (w : IosmWwan)
    (tag : Nat) (idx : Nat) : TxResult :=
  let r := imemTx tag (w.vlan_devs idx).ch_id
  if r = 0 then ⟨NETDEV_TX_OK, true, false⟩
  else if r = -2 then ⟨NETDEV_TX_BUSY, true, false⟩
  else ⟨-EIOval, true, true⟩

/- Embedding of ipc_wwan_transmit.  align models ipc_wwan_skb_align,
   which can fail only through allocation failure (none).  The result
   records the return value, whether the transport transmit primitive
   was invoked, and whether the frame was freed by this function (the
   exit path frees; a successful or busy hand-off does not). -/
def ipc_wwan_transmit (imemTx : Nat → Int → Int)
    (align : SkBuff → Option SkBuff) (w : IosmWwan) (skb : SkBuff) :
    TxResult :=
  let tag := skb.vlan_tag.getD 0
  if tag = WWAN_ROOT_VLAN_TAG then ⟨-EINVAL, false, true⟩
  else
    let pr := ipc_wwan_pull_header skb false
    let header_size := pr.1
    let skb1 := pr.2.1
    let is_ip := pr.2.2
    if header_size = 0 then ⟨-EINVAL, false, true⟩
    else
      let idx := ipc_wwan_get_vlan_devs_nr w tag
      if idx < 0 ∨ (w.max_devs : Int) ≤ idx ∨
          (w.vlan_devs idx.toNat).ch_id < 0 then ⟨-EINVAL, false, true⟩
      else if 0 < tag ∧ tag < 256 then
        if is_ip = false then ⟨-EXDEV, false, true⟩
        else ipc_wwan_transmit_send imemTx w tag idx.toNat
      else if 256 < tag ∧ tag < 512 then
        if is_ip = true then ⟨-EXDEV, false, true⟩
        else
          match align skb1 with
          | none => ⟨-EINVAL, false, true⟩
          | some _ => ipc_wwan_transmit_send imemTx w tag idx.toNat
      else ⟨-EXDEV, false, true⟩

/- Embedding of the ethertype assignment of ipc_wwan_receive (the
   h_proto store): default ETH_P_802_3; for non-dss frames the first
   payload byte (at offset ETH_HLEN) selects ETH_P_IP when its high
   nibble is 4 and ETH_P_IPV6 when it is 6. -/
def ipc_wwan_receive_set_proto (dss : Bool) (data : List Nat) : Nat :=
  if dss = false then
    if data.getD ETH_HLEN 0 &&& 0xF0 = 0x40 then ETH_P_IP
    else if data.getD ETH_HLEN 0 &&& 0xF0 = 0x60 then ETH_P_IPV6
    else ETH_P_802_3
  else ETH_P_802_3

/- Embedding of ipc_wwan_select_queue.  A frame without a VLAN tag
   (vlan_get_tag fails) gets the default queue; otherwise data-range
   tags up to max_ip_devs get their own queue, control-range tags and
   the root tag get queue 0, and anything else the 0xFFFF sentinel. -/
def ipc_wwan_select_queue (w : IosmWwan) (skb : SkBuff) : Nat :=
  match skb.vlan_tag with
  | none => WWAN_DEFAULT_TXQ
  | some tag =>
    if IMEM_WWAN_DATA_VLAN_ID_START ≤ tag ∧ tag ≤ w.max_ip_devs then tag
    else if (IMEM_WWAN_CTRL_VLAN_ID_START ≤ tag ∧
        tag ≤ IMEM_WWAN_CTRL_VLAN_ID_END) ∨ tag = WWAN_ROOT_VLAN_TAG then
      WWAN_DEFAULT_TXQ
    else 0xFFFF

/- Embedding of ipc_wwan_update_stats: resolve the session id to a table
   index through the derived VLAN tag; on failure (or an index at or
   beyond max_devs) return with no counter touched, otherwise bump the
   per-session and the root-device counters. -/
def ipc_wwan_update_stats (w : IosmWwan) (id : Int) (len : Nat)
    (tx : Bool) : IosmWwan :=
  let idx := ipc_wwan_get_vlan_devs_nr w (ipc_wwan_mux_session_to_vlan_tag id)
  if idx < 0 ∨ (w.max_devs : Int) ≤ idx then w
  else
    let n := idx.toNat
    let e := w.vlan_devs n
    if tx then
      { setEntry w n
          { e with stats := { e.stats with
              tx_packets := e.stats.tx_packets + 1,
              tx_bytes := e.stats.tx_bytes + len } } with
        stats := { w.stats with
          tx_packets := w.stats.tx_packets + 1,
          tx_bytes := w.stats.tx_bytes + len } }
    else
      { setEntry w n
          { e with stats := { e.stats with
              rx_packets := e.stats.rx_packets + 1,
              rx_bytes := e.stats.rx_bytes + len } } with
        stats := { w.stats with
          rx_packets := w.stats.rx_packets + 1,
          rx_bytes := w.stats.rx_bytes + len } }

/- Table state produced by a successful ipc_wwan_add_vlan: the entry at
   index vlan_devs_nr gets the new tag and channel id, and the count
   grows by one. -/
def addedState (openCh : Nat → Int) (w : IosmWwan) (vid : Nat) : IosmWwan :=
  { w with
    vlan_devs := fun j =>
      if j = w.vlan_devs_nr then
        ⟨(vid : Int), openCh vid, (w.vlan_devs w.vlan_devs_nr).stats⟩
      else w.vlan_devs j,
    vlan_devs_nr := w.vlan_devs_nr + 1 }

/- Invariant of the session table: every live entry is bound to a valid
   (non-negative) channel id. -/
def Inv (w : IosmWwan) : Prop :=
  ∀ i, i < w.vlan_devs_nr → 0 ≤ (w.vlan_devs i).ch_id

/- Concrete states and frames used by closed theorems. -/

def zeroStats : NetDeviceStats := ⟨0, 0, 0, 0⟩

def zeroEntry : IpcVlanInfo := ⟨0, 0, zeroStats⟩

def mkEntry (vid ch : Int) : IpcVlanInfo := ⟨vid, ch, zeroStats⟩

def emptyWwan : IosmWwan :=
  { vlan_devs_alloc := true
    vlan_devs := fun _ => zeroEntry
    vlan_devs_nr := 0
    max_devs := 4
    max_ip_devs := 2
    stats := zeroStats }

/- State whose table already holds max_ip_devs = 2 live sessions. -/
def fullIpWwan : IosmWwan :=
  { emptyWwan with
    vlan_devs := fun j =>
      if j = 0 then mkEntry 1 5 else if j = 1 then mkEntry 2 6 else zeroEntry
    vlan_devs_nr := 2 }

/- State whose table already holds max_devs = 4 live sessions, i.e. the
   whole kcalloc allocation is in use. -/
def fullDevWwan : IosmWwan :=
  { emptyWwan with
    vlan_devs := fun j =>
      if j = 0 then mkEntry 1 5 else if j = 1 then mkEntry 2 6
      else if j = 2 then mkEntry 300 7 else if j = 3 then mkEntry 301 8
      else zeroEntry
    vlan_devs_nr := 4 }

/- Frame tagged with the root tag 0: an IPv4 ethernet frame. -/
def skbRoot : SkBuff :=
  ⟨ETH_P_IP, some 0, [0, 0, 0, 0, 0, 0, 0, 0, 0, 0, 0, 0, 8, 0, 0x45]⟩

/- Untagged frame whose ethernet header claims ETH_P_IP while the first
   payload byte is 0x00 (first nibble 0). -/
def skbIpHdrZeroPayload : SkBuff :=
  ⟨0, none, [0, 0, 0, 0, 0, 0, 0, 0, 0, 0, 0, 0, 0x08, 0x00, 0x00]⟩

/- Same frame bytes carrying VLAN tag 1 (an IP-data session). -/
def skbIpHdrZeroPayloadTag1 : SkBuff :=
  ⟨0, some 1, [0, 0, 0, 0, 0, 0, 0, 0, 0, 0, 0, 0, 0x08, 0x00, 0x00]⟩

/- ARP frame (ethertype 0x0806, non-IP) tagged with the IP-data tag 1. -/
def skbArp : SkBuff :=
  ⟨0, some 1, [0, 0, 0, 0, 0, 0, 0, 0, 0, 0, 0, 0, 0x08, 0x06, 0, 1]⟩

/- IPv4 frame tagged with the control-range tag 300. -/
def skbCtrlIp : SkBuff :=
  ⟨0, some 300, [0, 0, 0, 0, 0, 0, 0, 0, 0, 0, 0, 0, 0x08, 0x00, 0x45]⟩

/- Frame with only a VLAN tag, for queue selection. -/
def skbTagged (t : Nat) : SkBuff := ⟨0, some t, []⟩

/- General lemmas about the embedded operations, shared by the claim
   theorems below. -/

theorem get_vlan_devs_nr_lt (w : IosmWwan) (tag : Nat)
    (h : ¬ ipc_wwan_get_vlan_devs_nr w tag < 0) :
    (ipc_wwan_get_vlan_devs_nr w tag).toNat < w.vlan_devs_nr := by
  unfold ipc_wwan_get_vlan_devs_nr at *
  by_cases hA : w.vlan_devs_alloc
  · rw [if_pos hA] at h ⊢
    revert h
    cases hf : (List.range w.vlan_devs_nr).find?
        (fun i => (w.vlan_devs i).vlan_id == ((tag : Nat) : Int)) with
    | none => intro h; exact absurd (show (-EINVAL : Int) < 0 by decide) h
    | some i =>
      intro h
      have hm := List.mem_range.mp (List.mem_of_find?_eq_some hf)
      simpa using hm
  · rw [if_neg hA] at h
    exact absurd (show (-EINVAL : Int) < 0 by decide) h

theorem add_ok (openCh : Nat → Int) (w : IosmWwan) (vid : Nat)
    (hA : w.vlan_devs_alloc = true) (h1 : vid ≠ 0) (h2 : vid < 512)
    (hch : ¬ openCh vid < 0) :
    ipc_wwan_add_vlan openCh w vid = ⟨0, addedState openCh w vid, true⟩ := by
  unfold addedState
  have hc1 : ¬ (512 ≤ vid ∨ w.vlan_devs_alloc = false) := by
    push_neg
    exact ⟨by omega, by simp [hA]⟩
  have hc2 : ¬ vid = WWAN_ROOT_VLAN_TAG := by
    simpa [WWAN_ROOT_VLAN_TAG] using h1
  simp only [ipc_wwan_add_vlan, setEntry]
  rw [if_neg hc1, if_neg hc2, if_neg hch]
  refine congrArg (fun s => AddResult.mk 0 s true) ?_
  refine congrArg (fun f => IosmWwan.mk w.vlan_devs_alloc f
    (w.vlan_devs_nr + 1) w.max_devs w.max_ip_devs w.stats) ?_
  funext j
  by_cases hj : j = w.vlan_devs_nr
  · subst hj
    simp
  · simp [hj]

theorem remove_found_first (w : IosmWwan) (vid : Nat)
    (hA : w.vlan_devs_alloc = true) (hnr : w.vlan_devs_nr = 2)
    (hv0 : (w.vlan_devs 0).vlan_id = (vid : Int))
    (hc0 : ¬ (w.vlan_devs 0).ch_id < 0) :
    (ipc_wwan_remove_vlan w vid).ret = 0 ∧
    (ipc_wwan_remove_vlan w vid).closeCalled = true ∧
    (ipc_wwan_remove_vlan w vid).state.vlan_devs_nr = 1 ∧
    (ipc_wwan_remove_vlan w vid).state.vlan_devs 0 = w.vlan_devs 1 := by
  have hg : ipc_wwan_get_vlan_devs_nr w vid = 0 := by
    unfold ipc_wwan_get_vlan_devs_nr
    rw [if_pos hA, hnr]
    have hrg : List.range 2 = [0, 1] := rfl
    rw [hrg, List.find?_cons_of_pos _ (by simp [hv0])]
    rfl
  simp only [ipc_wwan_remove_vlan, hg, setEntry]
  simp [hc0, hnr]

theorem transmit_mismatch_aux (imemTx : Nat → Int → Int)
    (align : SkBuff → Option SkBuff) (w : IosmWwan) (skb : SkBuff) (tag : Nat)
    (htag : skb.vlan_tag.getD 0 = tag)
    (hhdr : ¬ (ipc_wwan_pull_header skb false).1 = 0)
    (hidx0 : 0 ≤ ipc_wwan_get_vlan_devs_nr w tag)
    (hidx1 : ipc_wwan_get_vlan_devs_nr w tag < (w.max_devs : Int))
    (hidx2 : 0 ≤ (w.vlan_devs (ipc_wwan_get_vlan_devs_nr w tag).toNat).ch_id)
    (hmis : (1 ≤ tag ∧ tag ≤ 255 ∧
        (ipc_wwan_pull_header skb false).2.2 = false) ∨
      (257 ≤ tag ∧ tag ≤ 511 ∧
        (ipc_wwan_pull_header skb false).2.2 = true)) :
    ipc_wwan_transmit imemTx align w skb = ⟨-EXDEV, false, true⟩ := by
  have htagne : ¬ tag = WWAN_ROOT_VLAN_TAG := by
    unfold WWAN_ROOT_VLAN_TAG
    rcases hmis with ⟨h1, _, _⟩ | ⟨h1, _, _⟩ <;> omega
  simp only [ipc_wwan_transmit]
  rw [htag, if_neg htagne, if_neg hhdr]
  rw [if_neg (by push_neg; exact ⟨hidx0, hidx1, hidx2⟩)]
  rcases hmis with ⟨h1, h2, hip⟩ | ⟨h1, h2, hip⟩
  · rw [if_pos ⟨by omega, by omega⟩, if_pos hip]
  · rw [if_neg (by omega), if_pos ⟨by omega, by omega⟩, if_pos hip]

theorem pull_is_ip_aux (skb : SkBuff) (b : Bool)
    (h : ¬ (ipc_wwan_pull_header skb b).1 = 0) :
    (ipc_wwan_pull_header skb b).2.2 =
      ((get_be16 skb.data (if skb.protocol = ETH_P_8021Q then 16 else 12)
          == ETH_P_IP) ||
       (get_be16 skb.data (if skb.protocol = ETH_P_8021Q then 16 else 12)
          == ETH_P_IPV6)) := by
  by_cases hq : skb.protocol = ETH_P_8021Q
  · by_cases hl : skb.data.length < VLAN_ETH_HLEN
    · exact absurd (by simp [ipc_wwan_pull_header, hq, hl]) h
    · have h18 : 0 < VLAN_ETH_HLEN := by decide
      simp [ipc_wwan_pull_header, hq, hl, h18]
  · by_cases hl : skb.data.length < ETH_HLEN
    · exact absurd (by simp [ipc_wwan_pull_header, hq, hl]) h
    · have h14 : 0 < ETH_HLEN := by decide
      simp [ipc_wwan_pull_header, hq, hl, h14]

/-- Claim C1: contrary to the claim, ipc_wwan_add_vlan performs no
capacity check at all.  On a table already holding max_ip_devs = 2 live
entries (and even on one holding max_devs = 4, the whole allocation),
add of a fresh in-range tag still returns 0, still calls the transport
open, writes the entry at index vlan_devs_nr — past the allocated array
in the max_devs case — and increments the count, instead of failing
with CapacityExceeded. -/
theorem add_vlan_has_no_capacity_check :
    fullIpWwan.max_ip_devs = 2 ∧ fullIpWwan.vlan_devs_nr = 2 ∧
    (ipc_wwan_add_vlan (fun _ => 7) fullIpWwan 3).ret = 0 ∧
    (ipc_wwan_add_vlan (fun _ => 7) fullIpWwan 3).openCalled = true ∧
    (ipc_wwan_add_vlan (fun _ => 7) fullIpWwan 3).state.vlan_devs_nr = 3 ∧
    ((ipc_wwan_add_vlan (fun _ => 7) fullIpWwan 3).state.vlan_devs 2).vlan_id
      = 3 ∧
    ((ipc_wwan_add_vlan (fun _ => 7) fullIpWwan 3).state.vlan_devs 2).ch_id
      = 7 ∧
    fullDevWwan.max_devs = 4 ∧ fullDevWwan.vlan_devs_nr = 4 ∧
    (ipc_wwan_add_vlan (fun _ => 7) fullDevWwan 3).ret = 0 ∧
    (ipc_wwan_add_vlan (fun _ => 7) fullDevWwan 3).openCalled = true ∧
    (ipc_wwan_add_vlan (fun _ => 7) fullDevWwan 3).state.vlan_devs_nr = 5 ∧
    ((ipc_wwan_add_vlan (fun _ => 7) fullDevWwan 3).state.vlan_devs 4).vlan_id
      = 3 := by
  decide

/-- Claim C2 (counterexample): add with tag 0 is not rejected with an
error — it returns 0, the success code, with the table unchanged and
the transport open not called. -/
theorem add_vlan_zero_not_error :
    (ipc_wwan_add_vlan (fun _ => 7) emptyWwan 0).ret = 0 ∧
    ¬ (ipc_wwan_add_vlan (fun _ => 7) emptyWwan 0).ret < 0 ∧
    (ipc_wwan_add_vlan (fun _ => 7) emptyWwan 0).openCalled = false ∧
    (ipc_wwan_add_vlan (fun _ => 7) emptyWwan 0).state = emptyWwan :=
  ⟨rfl, by decide, rfl, rfl⟩

/-- Claim C2 (amended): on an allocated table, add(0) returns success
(0) and add of a tag at or above 512 fails with -EINVAL; in both cases
the session table is left unchanged and the transport open is not
called. -/
theorem add_vlan_reject_behaviour (openCh : Nat → Int) (w : IosmWwan)
    (vid : Nat) (hA : w.vlan_devs_alloc = true) (h : vid = 0 ∨ 512 ≤ vid) :
    ipc_wwan_add_vlan openCh w vid =
      ⟨if vid = 0 then 0 else -EINVAL, w, false⟩ := by
  rcases h with h | h
  · subst h
    unfold ipc_wwan_add_vlan
    rw [if_neg (by push_neg; exact ⟨by omega, by simp [hA]⟩)]
    rw [if_pos (show 0 = WWAN_ROOT_VLAN_TAG from rfl)]
    rfl
  · unfold ipc_wwan_add_vlan
    rw [if_pos (Or.inl h)]
    rw [if_neg (by omega)]

/-- Witness for the amended claim C2 at tag 0 and tag 600 on a concrete
table. -/
theorem add_vlan_reject_behaviour_witness :
    ipc_wwan_add_vlan (fun _ => 7) emptyWwan 0 = ⟨0, emptyWwan, false⟩ ∧
    ipc_wwan_add_vlan (fun _ => 7) emptyWwan 600
      = ⟨-EINVAL, emptyWwan, false⟩ := by
  constructor
  · have h := add_vlan_reject_behaviour (fun _ => 7) emptyWwan 0
      (by decide) (Or.inl rfl)
    simpa using h
  · have h := add_vlan_reject_behaviour (fun _ => 7) emptyWwan 600
      (by decide) (Or.inr (by decide))
    simpa using h

/-- Claim C3 (counterexample): a frame carrying the root tag 0 is freed
without reaching the transport, but the outcome is reported as -EINVAL,
an error code different from the success code NETDEV_TX_OK — not as
success. -/
theorem transmit_root_tag_counterexample :
    (ipc_wwan_transmit (fun _ _ => 0) (fun s => some s) emptyWwan
        skbRoot).ret = -EINVAL ∧
    (ipc_wwan_transmit (fun _ _ => 0) (fun s => some s) emptyWwan
        skbRoot).ret ≠ NETDEV_TX_OK ∧
    (ipc_wwan_transmit (fun _ _ => 0) (fun s => some s) emptyWwan
        skbRoot).ret < 0 ∧
    (ipc_wwan_transmit (fun _ _ => 0) (fun s => some s) emptyWwan
        skbRoot).txCalled = false ∧
    (ipc_wwan_transmit (fun _ _ => 0) (fun s => some s) emptyWwan
        skbRoot).freed = true := by
  decide

/-- Claim C3 (amended): for every frame whose session tag resolves to
the root tag 0, transmit frees the frame without handing it to the
transport and returns -EINVAL (it only skips the drop log; the return
value is an error code, not success). -/
theorem transmit_root_tag_drops (imemTx : Nat → Int → Int)
    (align : SkBuff → Option SkBuff) (w : IosmWwan) (skb : SkBuff)
    (htag : skb.vlan_tag.getD 0 = 0) :
    ipc_wwan_transmit imemTx align w skb = ⟨-EINVAL, false, true⟩ := by
  simp only [ipc_wwan_transmit]
  rw [htag]
  simp [WWAN_ROOT_VLAN_TAG]

/-- Witness for the amended claim C3 on a concrete root-tagged frame. -/
theorem transmit_root_tag_drops_witness :
    ipc_wwan_transmit (fun _ _ => 0) (fun s => some s) emptyWwan skbRoot
      = ⟨-EINVAL, false, true⟩ :=
  transmit_root_tag_drops (fun _ _ => 0) (fun s => some s) emptyWwan
    skbRoot (by decide)

/-- Claim C4 (counterexample): the recorded IP classification does not
follow the first payload nibble.  A frame whose ethernet header carries
ethertype 0x0800 but whose payload starts with byte 0x00 is recorded as
IP-class even though the first payload nibble is neither 0x4 nor 0x6;
conversely an ARP frame (ethertype 0x0806) whose payload starts with
0x00 0x01 is recorded non-IP independently of its payload. -/
theorem pull_header_nibble_counterexample :
    (ipc_wwan_pull_header skbIpHdrZeroPayload false).1 = 14 ∧
    (ipc_wwan_pull_header skbIpHdrZeroPayload false).2.2 = true ∧
    (ipc_wwan_pull_header skbIpHdrZeroPayload false).2.1.data.getD 0 0 / 16
      ≠ 4 ∧
    (ipc_wwan_pull_header skbIpHdrZeroPayload false).2.1.data.getD 0 0 / 16
      ≠ 6 := by
  decide

/-- Claim C4 (amended): after the header is stripped, the frame is
recorded as IP-class exactly when the stripped header's ethertype (the
VLAN-encapsulated protocol for 802.1Q frames, h_proto otherwise) is
ETH_P_IP or ETH_P_IPV6 — not by payload-nibble inspection — and this
recorded flag is what the subsequent protocol-class check of transmit
uses. -/
theorem pull_header_class_from_ethertype (imemTx : Nat → Int → Int)
    (align : SkBuff → Option SkBuff) (w : IosmWwan) (skb : SkBuff)
    (tag : Nat) (htag : skb.vlan_tag.getD 0 = tag)
    (hhdr : ¬ (ipc_wwan_pull_header skb false).1 = 0)
    (hidx0 : 0 ≤ ipc_wwan_get_vlan_devs_nr w tag)
    (hidx1 : ipc_wwan_get_vlan_devs_nr w tag < (w.max_devs : Int))
    (hidx2 : 0 ≤ (w.vlan_devs (ipc_wwan_get_vlan_devs_nr w tag).toNat).ch_id) :
    (ipc_wwan_pull_header skb false).2.2 =
      ((get_be16 skb.data (if skb.protocol = ETH_P_8021Q then 16 else 12)
          == ETH_P_IP) ||
       (get_be16 skb.data (if skb.protocol = ETH_P_8021Q then 16 else 12)
          == ETH_P_IPV6)) ∧
    (1 ≤ tag → tag ≤ 255 → (ipc_wwan_pull_header skb false).2.2 = false →
      ipc_wwan_transmit imemTx align w skb = ⟨-EXDEV, false, true⟩) ∧
    (257 ≤ tag → tag ≤ 511 → (ipc_wwan_pull_header skb false).2.2 = true →
      ipc_wwan_transmit imemTx align w skb = ⟨-EXDEV, false, true⟩) := by
  refine ⟨pull_is_ip_aux skb false hhdr, ?_, ?_⟩
  · intro h1 h2 hip
    exact transmit_mismatch_aux imemTx align w skb tag htag hhdr hidx0 hidx1
      hidx2 (Or.inl ⟨h1, h2, hip⟩)
  · intro h1 h2 hip
    exact transmit_mismatch_aux imemTx align w skb tag htag hhdr hidx0 hidx1
      hidx2 (Or.inr ⟨h1, h2, hip⟩)

/-- Witness for the amended claim C4 on a concrete tag-1 frame with an
IP ethertype and a zero first payload byte. -/
theorem pull_header_class_from_ethertype_witness :
    (ipc_wwan_pull_header skbIpHdrZeroPayloadTag1 false).2.2 =
      ((get_be16 skbIpHdrZeroPayloadTag1.data
          (if skbIpHdrZeroPayloadTag1.protocol = ETH_P_8021Q then 16 else 12)
          == ETH_P_IP) ||
       (get_be16 skbIpHdrZeroPayloadTag1.data
          (if skbIpHdrZeroPayloadTag1.protocol = ETH_P_8021Q then 16 else 12)
          == ETH_P_IPV6)) :=
  (pull_header_class_from_ethertype (fun _ _ => 0) (fun s => some s)
    fullIpWwan skbIpHdrZeroPayloadTag1 1 (by decide) (by decide) (by decide)
    (by decide) (by decide)).1

/-- Claim C5: a frame whose resolved tag lies in the IP-data range 1..255
but is classified non-IP, or whose tag lies in the control range 257..511
but is classified IP, is rejected by transmit with -EXDEV
(ProtocolMismatch) and freed without the transport transmit primitive
being invoked. -/
theorem transmit_protocol_mismatch (imemTx : Nat → Int → Int)
    (align : SkBuff → Option SkBuff) (w : IosmWwan) (skb : SkBuff)
    (tag : Nat) (htag : skb.vlan_tag.getD 0 = tag)
    (hhdr : ¬ (ipc_wwan_pull_header skb false).1 = 0)
    (hidx0 : 0 ≤ ipc_wwan_get_vlan_devs_nr w tag)
    (hidx1 : ipc_wwan_get_vlan_devs_nr w tag < (w.max_devs : Int))
    (hidx2 : 0 ≤ (w.vlan_devs (ipc_wwan_get_vlan_devs_nr w tag).toNat).ch_id)
    (hmis : (1 ≤ tag ∧ tag ≤ 255 ∧
        (ipc_wwan_pull_header skb false).2.2 = false) ∨
      (257 ≤ tag ∧ tag ≤ 511 ∧
        (ipc_wwan_pull_header skb false).2.2 = true)) :
    ipc_wwan_transmit imemTx align w skb = ⟨-EXDEV, false, true⟩ :=
  transmit_mismatch_aux imemTx align w skb tag htag hhdr hidx0 hidx1 hidx2
    hmis

/-- Witness for claim C5: an ARP frame on IP-data tag 1 is rejected with
-EXDEV, freed, and never handed to the transport. -/
theorem transmit_protocol_mismatch_witness :
    ipc_wwan_transmit (fun _ _ => 0) (fun s => some s) fullIpWwan skbArp
      = ⟨-EXDEV, false, true⟩ :=
  transmit_protocol_mismatch (fun _ _ => 0) (fun s => some s) fullIpWwan
    skbArp 1 (by decide) (by decide) (by decide) (by decide) (by decide)
    (Or.inl ⟨by decide, by decide, by decide⟩)

/-- Claim C6: queue selection is a pure function of the frame's tag.
Tags 1..255 map to their own value when within max_ip_devs and to the
0xFFFF sentinel otherwise; tags 257..511 and the root tag 0 map to
queue 0 (stated for configurations with max_ip_devs at most 256, as
produced by init, whose IP session count is the bound of the 1..255
tag range). -/
theorem select_queue_spec (w : IosmWwan) (skb : SkBuff) (tag : Nat)
    (htag : skb.vlan_tag = some tag) (hcap : w.max_ip_devs ≤ 256) :
    (1 ≤ tag → tag ≤ 255 →
      ipc_wwan_select_queue w skb =
        if tag ≤ w.max_ip_devs then tag else 0xFFFF) ∧
    (257 ≤ tag → tag ≤ 511 → ipc_wwan_select_queue w skb = 0) ∧
    (tag = 0 → ipc_wwan_select_queue w skb = 0) := by
  simp only [ipc_wwan_select_queue, htag]
  refine ⟨?_, ?_, ?_⟩
  · intro h1 h2
    by_cases hm : tag ≤ w.max_ip_devs
    · rw [if_pos ⟨by simpa [IMEM_WWAN_DATA_VLAN_ID_START] using h1, hm⟩,
        if_pos hm]
    · rw [if_neg (by simp only [IMEM_WWAN_DATA_VLAN_ID_START]; omega),
        if_neg (by simp only [IMEM_WWAN_CTRL_VLAN_ID_START,
          IMEM_WWAN_CTRL_VLAN_ID_END, WWAN_ROOT_VLAN_TAG]; omega),
        if_neg hm]
  · intro h1 h2
    rw [if_neg (by simp only [IMEM_WWAN_DATA_VLAN_ID_START]; omega),
      if_pos (Or.inl ⟨by simp only [IMEM_WWAN_CTRL_VLAN_ID_START]; omega,
        by simp only [IMEM_WWAN_CTRL_VLAN_ID_END]; omega⟩)]
    rfl
  · intro h0
    rw [if_neg (by simp only [IMEM_WWAN_DATA_VLAN_ID_START]; omega),
      if_pos (Or.inr (by simpa [WWAN_ROOT_VLAN_TAG] using h0))]
    rfl

/-- Witness for claim C6 at tags 1, 3, 300 and 0 on a configuration
with max_ip_devs = 2. -/
theorem select_queue_spec_witness :
    ipc_wwan_select_queue emptyWwan (skbTagged 1) = 1 ∧
    ipc_wwan_select_queue emptyWwan (skbTagged 3) = 0xFFFF ∧
    ipc_wwan_select_queue emptyWwan (skbTagged 300) = 0 ∧
    ipc_wwan_select_queue emptyWwan (skbTagged 0) = 0 := by
  refine ⟨?_, ?_, ?_, ?_⟩
  · have h := (select_queue_spec emptyWwan (skbTagged 1) 1 rfl
      (by decide)).1 (by decide) (by decide)
    simpa using h
  · have h := (select_queue_spec emptyWwan (skbTagged 3) 3 rfl
      (by decide)).1 (by decide) (by decide)
    simpa using h
  · exact (select_queue_spec emptyWwan (skbTagged 300) 300 rfl
      (by decide)).2.1 (by decide) (by decide)
  · exact (select_queue_spec emptyWwan (skbTagged 0) 0 rfl
      (by decide)).2.2 rfl

/-- Claim C7: starting from an empty table, add(t1), add(t2), remove(t1)
for distinct valid tags succeed; afterwards the table holds exactly one
live session, t2, in slot 0 (the compaction shifted it down by one),
with the channel id returned by add(t2), and the count is 1. -/
theorem add_add_remove_compaction (openCh : Nat → Int) (w : IosmWwan)
    (t1 t2 : Nat)
    (hA : w.vlan_devs_alloc = true) (h0 : w.vlan_devs_nr = 0)
    (h11 : t1 ≠ 0) (h12 : t1 < 512) (h21 : t2 ≠ 0) (h22 : t2 < 512)
    (hne : t1 ≠ t2) (ho1 : ¬ openCh t1 < 0) (ho2 : ¬ openCh t2 < 0) :
    (ipc_wwan_add_vlan openCh w t1).ret = 0 ∧
    (ipc_wwan_add_vlan openCh
        (ipc_wwan_add_vlan openCh w t1).state t2).ret = 0 ∧
    (ipc_wwan_remove_vlan
        (ipc_wwan_add_vlan openCh
          (ipc_wwan_add_vlan openCh w t1).state t2).state t1).ret = 0 ∧
    (ipc_wwan_remove_vlan
        (ipc_wwan_add_vlan openCh
          (ipc_wwan_add_vlan openCh w t1).state t2).state t1).closeCalled
      = true ∧
    (ipc_wwan_remove_vlan
        (ipc_wwan_add_vlan openCh
          (ipc_wwan_add_vlan openCh w t1).state t2).state
        t1).state.vlan_devs_nr = 1 ∧
    ((ipc_wwan_remove_vlan
        (ipc_wwan_add_vlan openCh
          (ipc_wwan_add_vlan openCh w t1).state t2).state
        t1).state.vlan_devs 0).vlan_id = (t2 : Int) ∧
    ((ipc_wwan_remove_vlan
        (ipc_wwan_add_vlan openCh
          (ipc_wwan_add_vlan openCh w t1).state t2).state
        t1).state.vlan_devs 0).ch_id = openCh t2 := by
  rw [add_ok openCh w t1 hA h11 h12 ho1]
  show (0 : Int) = 0 ∧ _
  refine ⟨rfl, ?_⟩
  rw [show (⟨0, addedState openCh w t1, true⟩ : AddResult).state
      = addedState openCh w t1 from rfl]
  rw [add_ok openCh (addedState openCh w t1) t2
    (by simpa [addedState] using hA) h21 h22 ho2]
  rw [show (⟨0, addedState openCh (addedState openCh w t1) t2, true⟩ :
      AddResult).state = addedState openCh (addedState openCh w t1) t2
      from rfl]
  refine ⟨rfl, ?_⟩
  have hfacts := remove_found_first
    (addedState openCh (addedState openCh w t1) t2) t1
    (by simpa [addedState] using hA) (by simp [addedState, h0])
    (by simp [addedState, h0]) (by simpa [addedState, h0] using ho1)
  refine ⟨hfacts.1, hfacts.2.1, hfacts.2.2.1, ?_, ?_⟩
  · rw [hfacts.2.2.2]
    simp [addedState, h0]
  · rw [hfacts.2.2.2]
    simp [addedState, h0]

/-- Witness for claim C7 with tags 9 and 300 on a concrete empty
table. -/
theorem add_add_remove_compaction_witness :
    (ipc_wwan_add_vlan (fun v => if v = 9 then 41 else 42) emptyWwan
        9).ret = 0 ∧
    (ipc_wwan_add_vlan (fun v => if v = 9 then 41 else 42)
        (ipc_wwan_add_vlan (fun v => if v = 9 then 41 else 42) emptyWwan
          9).state 300).ret = 0 ∧
    (ipc_wwan_remove_vlan
        (ipc_wwan_add_vlan (fun v => if v = 9 then 41 else 42)
          (ipc_wwan_add_vlan (fun v => if v = 9 then 41 else 42) emptyWwan
            9).state 300).state 9).ret = 0 ∧
    (ipc_wwan_remove_vlan
        (ipc_wwan_add_vlan (fun v => if v = 9 then 41 else 42)
          (ipc_wwan_add_vlan (fun v => if v = 9 then 41 else 42) emptyWwan
            9).state 300).state 9).closeCalled = true ∧
    (ipc_wwan_remove_vlan
        (ipc_wwan_add_vlan (fun v => if v = 9 then 41 else 42)
          (ipc_wwan_add_vlan (fun v => if v = 9 then 41 else 42) emptyWwan
            9).state 300).state 9).state.vlan_devs_nr = 1 ∧
    ((ipc_wwan_remove_vlan
        (ipc_wwan_add_vlan (fun v => if v = 9 then 41 else 42)
          (ipc_wwan_add_vlan (fun v => if v = 9 then 41 else 42) emptyWwan
            9).state 300).state 9).state.vlan_devs 0).vlan_id
      = ((300 : Nat) : Int) ∧
    ((ipc_wwan_remove_vlan
        (ipc_wwan_add_vlan (fun v => if v = 9 then 41 else 42)
          (ipc_wwan_add_vlan (fun v => if v = 9 then 41 else 42) emptyWwan
            9).state 300).state 9).state.vlan_devs 0).ch_id
      = (fun v : Nat => if v = 9 then (41 : Int) else 42) 300 :=
  add_add_remove_compaction (fun v => if v = 9 then 41 else 42) emptyWwan
    9 300 (by decide) (by decide) (by decide) (by decide) (by decide)
    (by decide) (by decide) (by decide) (by decide)

set_option maxRecDepth 8192 in
/-- Claim C8: the receive path assigns ETH_P_802_3 to every control
(dss) payload regardless of content; for data payloads it assigns
ETH_P_IP when the first payload nibble is 4, ETH_P_IPV6 when it is 6,
and ETH_P_802_3 otherwise. -/
theorem receive_proto_spec (dss : Bool) (data : List Nat)
    (hb : data.getD ETH_HLEN 0 < 256) :
    (dss = true → ipc_wwan_receive_set_proto dss data = ETH_P_802_3) ∧
    (dss = false → ipc_wwan_receive_set_proto dss data =
      (if data.getD ETH_HLEN 0 / 16 = 4 then ETH_P_IP
       else if data.getD ETH_HLEN 0 / 16 = 6 then ETH_P_IPV6
       else ETH_P_802_3)) := by
  have key : ∀ b : Nat, b < 256 →
      ((b &&& 240 = 64) ↔ b / 16 = 4) ∧ ((b &&& 240 = 96) ↔ b / 16 = 6) := by
    decide
  constructor
  · intro h
    simp [ipc_wwan_receive_set_proto, h]
  · intro h
    have k := key _ hb
    simp only [ipc_wwan_receive_set_proto, h]
    simp only [k.1, k.2]
    rfl

/-- Witness for claim C8: a control payload with first nibble 4 still
gets ETH_P_802_3, and data payloads follow the nibble. -/
theorem receive_proto_spec_witness :
    ipc_wwan_receive_set_proto true
      [0, 0, 0, 0, 0, 0, 0, 0, 0, 0, 0, 0, 0, 0, 0x45] = ETH_P_802_3 ∧
    ipc_wwan_receive_set_proto false
      [0, 0, 0, 0, 0, 0, 0, 0, 0, 0, 0, 0, 0, 0, 0x45] = ETH_P_IP := by
  constructor
  · exact (receive_proto_spec true
      [0, 0, 0, 0, 0, 0, 0, 0, 0, 0, 0, 0, 0, 0, 0x45] (by decide)).1 rfl
  · have h := (receive_proto_spec false
      [0, 0, 0, 0, 0, 0, 0, 0, 0, 0, 0, 0, 0, 0, 0x45] (by decide)).2 rfl
    simpa using h

/-- Claim C9: the invariant that every live table entry carries a valid
(non-negative) channel id is preserved by every add and by every
remove. -/
theorem channel_validity_invariant (openCh : Nat → Int) (w : IosmWwan)
    (vid1 vid2 : Nat) (hInv : Inv w) :
    Inv (ipc_wwan_add_vlan openCh w vid1).state ∧
    Inv (ipc_wwan_remove_vlan w vid2).state := by
  constructor
  · simp only [ipc_wwan_add_vlan]
    split
    · exact hInv
    · split
      · exact hInv
      · split
        · intro i hi
          simp only [setEntry] at hi ⊢
          rw [if_neg (by omega)]
          exact hInv i hi
        · intro i hi
          simp only [setEntry] at hi ⊢
          rename_i hch
          by_cases hieq : i = w.vlan_devs_nr
          · subst hieq
            simp [setEntry]
            omega
          · rw [if_neg hieq, if_neg hieq]
            exact hInv i (by omega)
  · simp only [ipc_wwan_remove_vlan]
    split
    · exact hInv
    · split
      · exact hInv
      · rename_i hpos hch
        have hlt := get_vlan_devs_nr_lt w vid2 hpos
        intro i hi
        simp only [setEntry] at hi ⊢
        by_cases hni : (ipc_wwan_get_vlan_devs_nr w vid2).toNat ≤ i
        · rw [if_pos ⟨hni, by omega⟩]
          rw [if_neg (by omega)]
          exact hInv (i + 1) (by omega)
        · rw [if_neg (by omega)]
          rw [if_neg (by omega)]
          exact hInv i (by omega)

/-- Witness for claim C9 on a concrete table holding two valid
sessions. -/
theorem channel_validity_invariant_witness :
    Inv (ipc_wwan_add_vlan (fun _ => 7) fullIpWwan 3).state ∧
    Inv (ipc_wwan_remove_vlan fullIpWwan 1).state :=
  channel_validity_invariant (fun _ => 7) fullIpWwan 3 1
    (by intro i hi; have h2 : i < 2 := hi; interval_cases i <;> decide)

/-- Claim C10: when the derived tag id + 1 matches no live entry of the
session table, update_stats leaves the whole state — every per-session
counter and every root-device counter — unchanged. -/
theorem update_stats_unknown_session (w : IosmWwan) (id : Int) (len : Nat)
    (tx : Bool)
    (h : ∀ i, i < w.vlan_devs_nr →
      (w.vlan_devs i).vlan_id ≠
        ((ipc_wwan_mux_session_to_vlan_tag id : Nat) : Int)) :
    ipc_wwan_update_stats w id len tx = w := by
  have hg : ipc_wwan_get_vlan_devs_nr w (ipc_wwan_mux_session_to_vlan_tag id)
      = -EINVAL := by
    unfold ipc_wwan_get_vlan_devs_nr
    by_cases hA : w.vlan_devs_alloc
    · rw [if_pos hA]
      have hn : (List.range w.vlan_devs_nr).find?
          (fun i => (w.vlan_devs i).vlan_id ==
            ((ipc_wwan_mux_session_to_vlan_tag id : Nat) : Int)) = none := by
        rw [List.find?_eq_none]
        intro x hx
        simp only [beq_iff_eq]
        exact h x (List.mem_range.mp hx)
      rw [hn]
    · rw [if_neg hA]
  unfold ipc_wwan_update_stats
  rw [hg, if_pos (Or.inl (by decide))]

/-- Witness for claim C10: session id 5 (tag 6) has no entry in a table
holding tags 1 and 2, so the update leaves the state untouched. -/
theorem update_stats_unknown_session_witness :
    ipc_wwan_update_stats fullIpWwan 5 100 true = fullIpWwan :=
  update_stats_unknown_session fullIpWwan 5 100 true
    (by intro i hi; have h2 : i < 2 := hi; interval_cases i <;> decide)

end Iosm
